import Mathlib

/-!
Verification of the generation relay in `functions/api/generate.js` (the
native edge handler `onRequestPost`) and `functions/_middleware.js` (the
Express-style route registered in `getRouteHandler`, entered through
`module.exports`).

Both handlers are shallowly embedded as pure functions from the request
prompt and an environment oracle — the outcome of the single remote submit
call and the outcome of each remote poll call — to the observable result:
the HTTP reply (rejection or stream), the ordered list of emitted
server-sent events, whether the stream was closed, and how many remote
calls of each kind were issued.

A remote call in the JavaScript source can resolve with a response or
throw (network fault, body-parse fault); a thrown fault anywhere inside
the handler's `try` lands in the single `catch`, which emits a
`服务器错误: ...` error event and closes the stream.  The oracle types
below flatten each call site's possible outcomes accordingly.
-/

/-- One server-sent event, `\x7btype, message, imageUrl?\x7d` as produced by
`sendEvent` in both handlers.  `imageUrl` is carried only by `complete`
events (JSON.stringify drops an `undefined` field, which `none` models). -/
structure Event where
  type : String
  message : String
  imageUrl : Option String := none
deriving Repr, DecidableEq

def statusEv (m : String) : Event := ⟨"status", m, none⟩

def errorEv (m : String) : Event := ⟨"error", m, none⟩

def completeEv (m : String) (u : Option String) : Event := ⟨"complete", m, u⟩

/-- JavaScript string interpolation of a possibly-undefined value:
`template literal` renders `undefined` as the text "undefined". -/
def jsStr : Option String → String
  | none => "undefined"
  | some s => s

/-- JavaScript `a || b` on a possibly-undefined string: an absent or empty
string falls through to the default (empty strings are falsy). -/
def jsOr (o : Option String) (d : String) : String :=
  match o with
  | some s => if s.isEmpty then d else s
  | none => d

/-- JavaScript `s.trim()`, modelled on the string's character list:
leading and trailing whitespace removed. -/
def jsTrim (s : String) : List Char :=
  ((s.toList.dropWhile Char.isWhitespace).reverse.dropWhile Char.isWhitespace).reverse

/-- The check `!prompt || !prompt.trim()` — the prompt is missing, empty, or
whitespace-only after trimming. -/
def promptInvalid : Option String → Bool
  | none => true
  | some s => (jsTrim s).isEmpty

def BASE_URL : String := "https://api-inference.modelscope.cn/"

/-- URL of the poll call, `BASE_URL + "v1/tasks/" + taskId` with JavaScript
interpolation of a possibly-undefined task id. -/
def pollUrlOf (taskId : Option String) : String :=
  BASE_URL ++ "v1/tasks/" ++ jsStr taskId

/-- Outcome of the submit call section (fetch, `ok` check, body read):
`fault` — the fetch or a body read threw; `notOk` — `submitRes.ok` was
false and `submitRes.text()` yielded `errText` (with the HTTP status);
`okJson` — `submitRes.ok` was true and `submitRes.json()` parsed, with the
(possibly absent) `task_id` field. -/
inductive SubmitStep where
  | fault (msg : String)
  | notOk (status : Nat) (errText : String)
  | okJson (task_id : Option String)
deriving Repr, DecidableEq

/-- An element of `pollData.output_images` (edge handler) or the
`pollData.output_images` object itself (middleware): a record whose `url`
field may be absent. -/
structure UrlObj where
  url : Option String
deriving Repr, DecidableEq

/-- Parsed poll-response JSON as read by the edge handler:
`task_status`, `error?.message` (one `Option` models both an absent
`error` object and an absent `message`), and `output_images` as an array
of url records. -/
structure PollDataE where
  task_status : Option String
  error_message : Option String
  output_images : Option (List UrlObj)
deriving Repr, DecidableEq

/-- Outcome of one poll iteration's remote call in the edge handler
(which performs no `ok` check): the fetch or `pollRes.json()` threw, or
the JSON parsed. -/
inductive PollStepE where
  | fault (msg : String)
  | json (d : PollDataE)
deriving Repr, DecidableEq

/-- Parsed poll-response JSON as read by the middleware route:
`output_images` is a single record whose `url` field is read directly. -/
structure PollDataM where
  task_status : Option String
  error_message : Option String
  output_images : Option UrlObj
deriving Repr, DecidableEq

/-- Outcome of one poll iteration's remote call in the middleware route:
thrown fault, non-ok response (checked before reading the body), or
parsed JSON. -/
inductive PollStepM where
  | fault (msg : String)
  | notOk (status : Nat)
  | json (d : PollDataM)
deriving Repr, DecidableEq

/-- The HTTP reply produced for the request: a synchronous rejection with
a status code and JSON body, or the long-lived event-stream response. -/
inductive Reply where
  | reject (status : Nat) (body : String)
  | stream
deriving Repr, DecidableEq

/-- Observable result of one handler run: the reply, the ordered emitted
events, whether the output stream was closed, remote-call counts, the
poll URL used (when any poll was issued) and the Authorization header
value of the submit call (when issued). -/
structure Run where
  reply : Reply
  events : List Event
  closed : Bool
  submitCalls : Nat
  pollCalls : Nat
  pollUrl : Option String
  submitAuth : Option String
deriving Repr, DecidableEq

/-- Result of the poll loop proper: events emitted inside the loop, polls
issued, and whether a `return` was taken inside the loop (terminal status,
or a fault that jumped to the `catch`). -/
structure LoopRes where
  evs : List Event
  polls : Nat
  terminated : Bool
deriving Repr, DecidableEq

/-- Stand-in for the JavaScript engine's TypeError message raised by
reading a property of `undefined` (the exact engine text is irrelevant to
every claim; only that the fault is caught and reported matters). -/
def undefinedReadMsg : String := "Cannot read properties of undefined"

def MAX_POLLS_EDGE : Nat := 40

def MAX_POLLS_MW : Nat := 60

/-- The edge handler's poll loop (`for (let i = 0; i < MAX_POLLS; i++)`),
from iteration `i` with `fuel` iterations remaining.  Each iteration:
poll; on `task_status === 'SUCCEED'` emit `complete` with
`output_images[0].url` (an absent or empty array makes that access throw,
landing in the catch); on `'FAILED'` emit the failure error; otherwise
emit the 1-based pending status event and continue. -/
def edgePoll (polls : Nat → PollStepE) : Nat → Nat → LoopRes
  | _, 0 => ⟨[], 0, false⟩
  | i, fuel + 1 =>
    match polls i with
    | .fault msg => ⟨[errorEv ("服务器错误: " ++ msg)], 1, true⟩
    | .json d =>
      if d.task_status = some "SUCCEED" then
        match d.output_images with
        | some (o :: _) => ⟨[completeEv "生成完成！" o.url], 1, true⟩
        | _ => ⟨[errorEv ("服务器错误: " ++ undefinedReadMsg)], 1, true⟩
      else if d.task_status = some "FAILED" then
        ⟨[errorEv ("生成失败: " ++ jsOr d.error_message "未知原因")], 1, true⟩
      else
        let r := edgePoll polls (i + 1) fuel
        ⟨statusEv ("生成中... (" ++ toString (i + 1) ++ ")") :: r.evs,
          r.polls + 1, r.terminated⟩

/-- The middleware route's poll loop: like the edge loop, but a non-ok
poll response is reported as `轮询失败: <status>`, the failure message is
`图片生成失败: ...`/`未知错误`, the pending message is `正在生成中...`,
and the image URL is `output_images.url`. -/
def mwPoll (polls : Nat → PollStepM) : Nat → Nat → LoopRes
  | _, 0 => ⟨[], 0, false⟩
  | i, fuel + 1 =>
    match polls i with
    | .fault msg => ⟨[errorEv ("服务器错误: " ++ msg)], 1, true⟩
    | .notOk status => ⟨[errorEv ("轮询失败: " ++ toString status)], 1, true⟩
    | .json d =>
      if d.task_status = some "SUCCEED" then
        match d.output_images with
        | some o => ⟨[completeEv "生成完成！" o.url], 1, true⟩
        | none => ⟨[errorEv ("服务器错误: " ++ undefinedReadMsg)], 1, true⟩
      else if d.task_status = some "FAILED" then
        ⟨[errorEv ("图片生成失败: " ++ jsOr d.error_message "未知错误")], 1, true⟩
      else
        let r := mwPoll polls (i + 1) fuel
        ⟨statusEv ("正在生成中... (" ++ toString (i + 1) ++ ")") :: r.evs,
          r.polls + 1, r.terminated⟩

/-- Body of the 400 rejection, `JSON.stringify(\x7b error: '请输入提示词' \x7d)`. -/
def rejectBody : String := "\x7b\"error\":\"请输入提示词\"\x7d"

/-- Handler in `functions/api/generate.js`, `onRequestPost`: validate the prompt,
return a 400 rejection, or open the event stream, run submit and the poll
loop, append the timeout error when the budget is exhausted, and close.
A thrown fault at any point is caught and reported as `服务器错误: ...`. -/
def onRequestPost (apiKey : Option String) (prompt : Option String)
    (submit : SubmitStep) (polls : Nat → PollStepE) : Run :=
  if promptInvalid prompt then
    ⟨.reject 400 rejectBody, [], false, 0, 0, none, none⟩
  else
    let auth := some ("Bearer " ++ jsStr apiKey)
    let ev0 := statusEv "正在提交生成任务..."
    match submit with
    | .fault msg =>
      ⟨.stream, [ev0, errorEv ("服务器错误: " ++ msg)], true, 1, 0, none, auth⟩
    | .notOk _ errText =>
      ⟨.stream, [ev0, errorEv ("API 请求失败: " ++ errText)], true, 1, 0, none, auth⟩
    | .okJson taskId =>
      let ev1 := statusEv "任务已提交，正在生成中..."
      let r := edgePoll polls 0 MAX_POLLS_EDGE
      let evs :=
        if r.terminated then ev0 :: ev1 :: r.evs
        else ev0 :: ev1 :: r.evs ++ [errorEv "生成超时，请重试"]
      ⟨.stream, evs, true, 1, r.polls,
        if r.polls = 0 then none else some (pollUrlOf taskId), auth⟩

/-- Route in `functions/_middleware.js`, the `/api/generate` route installed by
`getRouteHandler`: same shape as the edge handler, with the middleware's
messages, `ok` check on poll responses, and 60-iteration budget.  The
submit-failure message includes the HTTP status
(`API 请求失败: <status> <errText>`). -/
def getRouteHandler (apiKey : Option String) (prompt : Option String)
    (submit : SubmitStep) (polls : Nat → PollStepM) : Run :=
  if promptInvalid prompt then
    ⟨.reject 400 rejectBody, [], false, 0, 0, none, none⟩
  else
    let auth := some ("Bearer " ++ jsStr apiKey)
    let ev0 := statusEv "正在提交生成任务..."
    match submit with
    | .fault msg =>
      ⟨.stream, [ev0, errorEv ("服务器错误: " ++ msg)], true, 1, 0, none, auth⟩
    | .notOk status errText =>
      ⟨.stream,
        [ev0, errorEv ("API 请求失败: " ++ toString status ++ " " ++ errText)],
        true, 1, 0, none, auth⟩
    | .okJson taskId =>
      let ev1 := statusEv "任务已提交，正在生成中..."
      let r := mwPoll polls 0 MAX_POLLS_MW
      let evs :=
        if r.terminated then ev0 :: ev1 :: r.evs
        else ev0 :: ev1 :: r.evs ++ [errorEv "生成超时，请重试"]
      ⟨.stream, evs, true, 1, r.polls,
        if r.polls = 0 then none else some (pollUrlOf taskId), auth⟩

/-- Entry in `functions/_middleware.js`, `module.exports`: copies the environment
secret into the process-wide variable
(`process.env.MODELSCOPE_API_KEY = env.MODELSCOPE_API_KEY`) and invokes
the route handler, which reads that variable back.  The first component
of the result is the process-wide variable after the request. -/
def moduleExports (_procKey : Option String) (envKey : Option String)
    (prompt : Option String) (submit : SubmitStep)
    (polls : Nat → PollStepM) : Option String × Run :=
  let procKeyAfter := envKey
  (procKeyAfter, getRouteHandler procKeyAfter prompt submit polls)

/-- A poll-call outcome that the edge handler treats as still pending:
parsed JSON whose `task_status` is neither the literal `SUCCEED` nor the
literal `FAILED`. -/
def stepPendsE : PollStepE → Bool
  | .json d => !(d.task_status == some "SUCCEED") && !(d.task_status == some "FAILED")
  | _ => false

/-- A poll-call outcome that the middleware route treats as still
pending: an ok response with parsed JSON whose `task_status` is neither
literal `SUCCEED` nor literal `FAILED`. -/
def stepPendsM : PollStepM → Bool
  | .json d => !(d.task_status == some "SUCCEED") && !(d.task_status == some "FAILED")
  | _ => false

def pendEvE (n : Nat) : Event := statusEv ("生成中... (" ++ toString n ++ ")")

def pendEvM (n : Nat) : Event := statusEv ("正在生成中... (" ++ toString n ++ ")")

/-! ## Loop lemmas shared by the claims -/

theorem edgePoll_pend (polls : Nat → PollStepE) (i fuel : Nat)
    (h : stepPendsE (polls i) = true) :
    edgePoll polls i (fuel + 1) =
      ⟨pendEvE (i + 1) :: (edgePoll polls (i + 1) fuel).evs,
        (edgePoll polls (i + 1) fuel).polls + 1,
        (edgePoll polls (i + 1) fuel).terminated⟩ := by
  cases hp : polls i with
  | fault m => simp [stepPendsE, hp] at h
  | json d =>
    rw [hp] at h
    simp only [stepPendsE, Bool.and_eq_true, Bool.not_eq_true', beq_eq_false_iff_ne,
      ne_eq] at h
    obtain ⟨h1, h2⟩ := h
    simp [edgePoll, hp, h1, h2, pendEvE]

theorem mwPoll_pend (polls : Nat → PollStepM) (i fuel : Nat)
    (h : stepPendsM (polls i) = true) :
    mwPoll polls i (fuel + 1) =
      ⟨pendEvM (i + 1) :: (mwPoll polls (i + 1) fuel).evs,
        (mwPoll polls (i + 1) fuel).polls + 1,
        (mwPoll polls (i + 1) fuel).terminated⟩ := by
  cases hp : polls i with
  | fault m => simp [stepPendsM, hp] at h
  | notOk s => simp [stepPendsM, hp] at h
  | json d =>
    rw [hp] at h
    simp only [stepPendsM, Bool.and_eq_true, Bool.not_eq_true', beq_eq_false_iff_ne,
      ne_eq] at h
    obtain ⟨h1, h2⟩ := h
    simp [mwPoll, hp, h1, h2, pendEvM]

theorem edgePoll_pendPrefix (polls : Nat → PollStepE) :
    ∀ (N i fuel : Nat), N ≤ fuel →
    (∀ j, j < N → stepPendsE (polls (i + j)) = true) →
    edgePoll polls i fuel =
      ⟨(List.range N).map (fun j => pendEvE (i + j + 1)) ++
          (edgePoll polls (i + N) (fuel - N)).evs,
        (edgePoll polls (i + N) (fuel - N)).polls + N,
        (edgePoll polls (i + N) (fuel - N)).terminated⟩ := by
  intro N
  induction N with
  | zero => intro i fuel _ _; simp
  | succ n ih =>
    intro i fuel hle hpend
    obtain ⟨fuel', rfl⟩ : ∃ f, fuel = f + 1 := ⟨fuel - 1, by omega⟩
    have h0 : stepPendsE (polls i) = true := by
      have := hpend 0 (by omega)
      simpa using this
    rw [edgePoll_pend polls i fuel' h0]
    have hrec := ih (i + 1) fuel' (by omega) (fun j hj => by
      have := hpend (j + 1) (by omega)
      have harith : i + (j + 1) = i + 1 + j := by omega
      rwa [harith] at this)
    rw [hrec]
    have harith1 : i + 1 + n = i + (n + 1) := by omega
    have harith2 : fuel' - n = fuel' + 1 - (n + 1) := by omega
    rw [harith1, harith2]
    simp only [LoopRes.mk.injEq]
    refine ⟨?_, by omega, trivial⟩
    have hmap : List.map ((fun j => pendEvE (i + j + 1)) ∘ Nat.succ) (List.range n)
        = List.map (fun j => pendEvE (i + 1 + j + 1)) (List.range n) := by
      refine List.map_congr_left ?_
      intro a _
      simp only [Function.comp_apply]
      congr 1
      omega
    rw [List.range_succ_eq_map, List.map_cons, List.map_map, hmap]
    simp

theorem mwPoll_pendPrefix (polls : Nat → PollStepM) :
    ∀ (N i fuel : Nat), N ≤ fuel →
    (∀ j, j < N → stepPendsM (polls (i + j)) = true) →
    mwPoll polls i fuel =
      ⟨(List.range N).map (fun j => pendEvM (i + j + 1)) ++
          (mwPoll polls (i + N) (fuel - N)).evs,
        (mwPoll polls (i + N) (fuel - N)).polls + N,
        (mwPoll polls (i + N) (fuel - N)).terminated⟩ := by
  intro N
  induction N with
  | zero => intro i fuel _ _; simp
  | succ n ih =>
    intro i fuel hle hpend
    obtain ⟨fuel', rfl⟩ : ∃ f, fuel = f + 1 := ⟨fuel - 1, by omega⟩
    have h0 : stepPendsM (polls i) = true := by
      have := hpend 0 (by omega)
      simpa using this
    rw [mwPoll_pend polls i fuel' h0]
    have hrec := ih (i + 1) fuel' (by omega) (fun j hj => by
      have := hpend (j + 1) (by omega)
      have harith : i + (j + 1) = i + 1 + j := by omega
      rwa [harith] at this)
    rw [hrec]
    have harith1 : i + 1 + n = i + (n + 1) := by omega
    have harith2 : fuel' - n = fuel' + 1 - (n + 1) := by omega
    rw [harith1, harith2]
    simp only [LoopRes.mk.injEq]
    refine ⟨?_, by omega, trivial⟩
    have hmap : List.map ((fun j => pendEvM (i + j + 1)) ∘ Nat.succ) (List.range n)
        = List.map (fun j => pendEvM (i + 1 + j + 1)) (List.range n) := by
      refine List.map_congr_left ?_
      intro a _
      simp only [Function.comp_apply]
      congr 1
      omega
    rw [List.range_succ_eq_map, List.map_cons, List.map_map, hmap]
    simp

theorem edgePoll_shape (polls : Nat → PollStepE) :
    ∀ (fuel i : Nat),
      ((edgePoll polls i fuel).terminated = true →
        ∃ pre e, (edgePoll polls i fuel).evs = pre ++ [e] ∧
          (∀ x ∈ pre, x.type = "status") ∧
          (e.type = "complete" ∨ e.type = "error")) ∧
      ((edgePoll polls i fuel).terminated = false →
        ∀ x ∈ (edgePoll polls i fuel).evs, x.type = "status") := by
  intro fuel
  induction fuel with
  | zero =>
    intro i
    constructor
    · intro h
      simp [edgePoll] at h
    · intro _ x hx
      simp [edgePoll] at hx
  | succ n ih =>
    intro i
    cases hp : polls i with
    | fault m =>
      constructor
      · intro _
        exact ⟨[], errorEv ("服务器错误: " ++ m),
          by simp [edgePoll, hp], by simp, Or.inr rfl⟩
      · intro h
        simp [edgePoll, hp] at h
    | json d =>
      by_cases hs : d.task_status = some "SUCCEED"
      · cases ho : d.output_images with
        | none =>
          constructor
          · intro _
            exact ⟨[], errorEv ("服务器错误: " ++ undefinedReadMsg),
              by simp [edgePoll, hp, hs, ho], by simp, Or.inr rfl⟩
          · intro h
            simp [edgePoll, hp, hs, ho] at h
        | some l =>
          cases l with
          | nil =>
            constructor
            · intro _
              exact ⟨[], errorEv ("服务器错误: " ++ undefinedReadMsg),
                by simp [edgePoll, hp, hs, ho], by simp, Or.inr rfl⟩
            · intro h
              simp [edgePoll, hp, hs, ho] at h
          | cons o t =>
            constructor
            · intro _
              exact ⟨[], completeEv "生成完成！" o.url,
                by simp [edgePoll, hp, hs, ho], by simp, Or.inl rfl⟩
            · intro h
              simp [edgePoll, hp, hs, ho] at h
      · by_cases hf : d.task_status = some "FAILED"
        · constructor
          · intro _
            exact ⟨[], errorEv ("生成失败: " ++ jsOr d.error_message "未知原因"),
              by simp [edgePoll, hp, hs, hf], by simp, Or.inr rfl⟩
          · intro h
            simp [edgePoll, hp, hs, hf] at h
        · have hpend : stepPendsE (polls i) = true := by
            simp [stepPendsE, hp, hs, hf]
          rw [edgePoll_pend polls i n hpend]
          dsimp only
          obtain ⟨ihT, ihF⟩ := ih (i + 1)
          constructor
          · intro h
            obtain ⟨pre, e, hevs, hpre, hterm⟩ := ihT h
            refine ⟨pendEvE (i + 1) :: pre, e, by simp [hevs], ?_, hterm⟩
            intro x hx
            rcases List.mem_cons.mp hx with h1 | h2
            · subst h1; rfl
            · exact hpre x h2
          · intro h x hx
            rcases List.mem_cons.mp hx with h1 | h2
            · subst h1; rfl
            · exact ihF h x h2

theorem mwPoll_shape (polls : Nat → PollStepM) :
    ∀ (fuel i : Nat),
      ((mwPoll polls i fuel).terminated = true →
        ∃ pre e, (mwPoll polls i fuel).evs = pre ++ [e] ∧
          (∀ x ∈ pre, x.type = "status") ∧
          (e.type = "complete" ∨ e.type = "error")) ∧
      ((mwPoll polls i fuel).terminated = false →
        ∀ x ∈ (mwPoll polls i fuel).evs, x.type = "status") := by
  intro fuel
  induction fuel with
  | zero =>
    intro i
    constructor
    · intro h
      simp [mwPoll] at h
    · intro _ x hx
      simp [mwPoll] at hx
  | succ n ih =>
    intro i
    cases hp : polls i with
    | fault m =>
      constructor
      · intro _
        exact ⟨[], errorEv ("服务器错误: " ++ m),
          by simp [mwPoll, hp], by simp, Or.inr rfl⟩
      · intro h
        simp [mwPoll, hp] at h
    | notOk st =>
      constructor
      · intro _
        exact ⟨[], errorEv ("轮询失败: " ++ toString st),
          by simp [mwPoll, hp], by simp, Or.inr rfl⟩
      · intro h
        simp [mwPoll, hp] at h
    | json d =>
      by_cases hs : d.task_status = some "SUCCEED"
      · cases ho : d.output_images with
        | none =>
          constructor
          · intro _
            exact ⟨[], errorEv ("服务器错误: " ++ undefinedReadMsg),
              by simp [mwPoll, hp, hs, ho], by simp, Or.inr rfl⟩
          · intro h
            simp [mwPoll, hp, hs, ho] at h
        | some o =>
          constructor
          · intro _
            exact ⟨[], completeEv "生成完成！" o.url,
              by simp [mwPoll, hp, hs, ho], by simp, Or.inl rfl⟩
          · intro h
            simp [mwPoll, hp, hs, ho] at h
      · by_cases hf : d.task_status = some "FAILED"
        · constructor
          · intro _
            exact ⟨[], errorEv ("图片生成失败: " ++ jsOr d.error_message "未知错误"),
              by simp [mwPoll, hp, hs, hf], by simp, Or.inr rfl⟩
          · intro h
            simp [mwPoll, hp, hs, hf] at h
        · have hpend : stepPendsM (polls i) = true := by
            simp [stepPendsM, hp, hs, hf]
          rw [mwPoll_pend polls i n hpend]
          dsimp only
          obtain ⟨ihT, ihF⟩ := ih (i + 1)
          constructor
          · intro h
            obtain ⟨pre, e, hevs, hpre, hterm⟩ := ihT h
            refine ⟨pendEvM (i + 1) :: pre, e, by simp [hevs], ?_, hterm⟩
            intro x hx
            rcases List.mem_cons.mp hx with h1 | h2
            · subst h1; rfl
            · exact hpre x h2
          · intro h x hx
            rcases List.mem_cons.mp hx with h1 | h2
            · subst h1; rfl
            · exact ihF h x h2

theorem edgePoll_pos (polls : Nat → PollStepE) (i fuel : Nat) (h : 1 ≤ fuel) :
    1 ≤ (edgePoll polls i fuel).polls := by
  obtain ⟨f, rfl⟩ : ∃ f, fuel = f + 1 := ⟨fuel - 1, by omega⟩
  cases hp : polls i with
  | fault m => simp [edgePoll, hp]
  | json d =>
    by_cases hs : d.task_status = some "SUCCEED"
    · cases ho : d.output_images with
      | none => simp [edgePoll, hp, hs, ho]
      | some l => cases l <;> simp [edgePoll, hp, hs, ho]
    · by_cases hf : d.task_status = some "FAILED"
      · simp [edgePoll, hp, hs, hf]
      · have hpend : stepPendsE (polls i) = true := by
          simp [stepPendsE, hp, hs, hf]
        rw [edgePoll_pend polls i f hpend]
        simp

theorem mwPoll_pos (polls : Nat → PollStepM) (i fuel : Nat) (h : 1 ≤ fuel) :
    1 ≤ (mwPoll polls i fuel).polls := by
  obtain ⟨f, rfl⟩ : ∃ f, fuel = f + 1 := ⟨fuel - 1, by omega⟩
  cases hp : polls i with
  | fault m => simp [mwPoll, hp]
  | notOk st => simp [mwPoll, hp]
  | json d =>
    by_cases hs : d.task_status = some "SUCCEED"
    · cases ho : d.output_images with
      | none => simp [mwPoll, hp, hs, ho]
      | some o => simp [mwPoll, hp, hs, ho]
    · by_cases hf : d.task_status = some "FAILED"
      · simp [mwPoll, hp, hs, hf]
      · have hpend : stepPendsM (polls i) = true := by
          simp [stepPendsM, hp, hs, hf]
        rw [mwPoll_pend polls i f hpend]
        simp

theorem edgePoll_front (pollsE : Nat → PollStepE) (N : Nat)
    (hN : N ≤ MAX_POLLS_EDGE)
    (hpend : ∀ j, j < N → stepPendsE (pollsE j) = true) :
    edgePoll pollsE 0 MAX_POLLS_EDGE =
      ⟨(List.range N).map (fun j => pendEvE (j + 1)) ++
          (edgePoll pollsE N (MAX_POLLS_EDGE - N)).evs,
        (edgePoll pollsE N (MAX_POLLS_EDGE - N)).polls + N,
        (edgePoll pollsE N (MAX_POLLS_EDGE - N)).terminated⟩ := by
  have h := edgePoll_pendPrefix pollsE N 0 MAX_POLLS_EDGE hN
    (fun j hj => by simpa using hpend j hj)
  simpa using h

theorem mwPoll_front (pollsM : Nat → PollStepM) (N : Nat)
    (hN : N ≤ MAX_POLLS_MW)
    (hpend : ∀ j, j < N → stepPendsM (pollsM j) = true) :
    mwPoll pollsM 0 MAX_POLLS_MW =
      ⟨(List.range N).map (fun j => pendEvM (j + 1)) ++
          (mwPoll pollsM N (MAX_POLLS_MW - N)).evs,
        (mwPoll pollsM N (MAX_POLLS_MW - N)).polls + N,
        (mwPoll pollsM N (MAX_POLLS_MW - N)).terminated⟩ := by
  have h := mwPoll_pendPrefix pollsM N 0 MAX_POLLS_MW hN
    (fun j hj => by simpa using hpend j hj)
  simpa using h

/-- C1: when the submit call succeeds with a task id and the polls report
a pending (non-terminal) status N times (N below the budget) followed by
the remote success status (spelled `SUCCEED` on the wire) carrying an
image URL, each handler emits exactly: one submission-status event, one
submitted-status event, N pending-status events, and one `complete` event
whose `imageUrl` is the URL from the successful poll response; the stream
is then closed and the event list ends there. -/
theorem claim_C1 (apiKey tid : Option String) (s : String)
    (hs : (jsTrim s).isEmpty = false) (N : Nat) (url : String)
    (pollsE : Nat → PollStepE) (dE : PollDataE) (imgs : List UrlObj)
    (hNE : N < MAX_POLLS_EDGE)
    (hpendE : ∀ j, j < N → stepPendsE (pollsE j) = true)
    (hjE : pollsE N = .json dE)
    (hstE : dE.task_status = some "SUCCEED")
    (himgE : dE.output_images = some (⟨some url⟩ :: imgs))
    (pollsM : Nat → PollStepM) (dM : PollDataM)
    (hNM : N < MAX_POLLS_MW)
    (hpendM : ∀ j, j < N → stepPendsM (pollsM j) = true)
    (hjM : pollsM N = .json dM)
    (hstM : dM.task_status = some "SUCCEED")
    (himgM : dM.output_images = some ⟨some url⟩) :
    onRequestPost apiKey (some s) (.okJson tid) pollsE =
      ⟨.stream,
        statusEv "正在提交生成任务..." :: statusEv "任务已提交，正在生成中..." ::
          ((List.range N).map (fun j => pendEvE (j + 1)) ++
            [completeEv "生成完成！" (some url)]),
        true, 1, N + 1, some (pollUrlOf tid), some ("Bearer " ++ jsStr apiKey)⟩ ∧
    getRouteHandler apiKey (some s) (.okJson tid) pollsM =
      ⟨.stream,
        statusEv "正在提交生成任务..." :: statusEv "任务已提交，正在生成中..." ::
          ((List.range N).map (fun j => pendEvM (j + 1)) ++
            [completeEv "生成完成！" (some url)]),
        true, 1, N + 1, some (pollUrlOf tid), some ("Bearer " ++ jsStr apiKey)⟩ := by
  have hE : edgePoll pollsE N (MAX_POLLS_EDGE - N) =
      ⟨[completeEv "生成完成！" (some url)], 1, true⟩ := by
    obtain ⟨f, hf⟩ : ∃ f, MAX_POLLS_EDGE - N = f + 1 :=
      ⟨MAX_POLLS_EDGE - N - 1, by simp only [MAX_POLLS_EDGE] at hNE ⊢; omega⟩
    rw [hf]
    simp [edgePoll, hjE, hstE, himgE]
  have hM : mwPoll pollsM N (MAX_POLLS_MW - N) =
      ⟨[completeEv "生成完成！" (some url)], 1, true⟩ := by
    obtain ⟨f, hf⟩ : ∃ f, MAX_POLLS_MW - N = f + 1 :=
      ⟨MAX_POLLS_MW - N - 1, by simp only [MAX_POLLS_MW] at hNM ⊢; omega⟩
    rw [hf]
    simp [mwPoll, hjM, hstM, himgM]
  have hfrontE := edgePoll_front pollsE N (by omega) hpendE
  rw [hE] at hfrontE
  have hfrontM := mwPoll_front pollsM N (by omega) hpendM
  rw [hM] at hfrontM
  constructor
  · simp [onRequestPost, promptInvalid, hs, hfrontE, Nat.add_comm]
  · simp [getRouteHandler, promptInvalid, hs, hfrontM, Nat.add_comm]

/-- Concrete poll oracles used by witnesses: two pending responses, then a
successful one carrying an image URL. -/
def wPollsE1 : Nat → PollStepE := fun i =>
  if i < 2 then .json ⟨some "PENDING", none, none⟩
  else .json ⟨some "SUCCEED", none, some [⟨some "http://img.example/1.png"⟩]⟩

def wPollsM1 : Nat → PollStepM := fun i =>
  if i < 2 then .json ⟨some "PENDING", none, none⟩
  else .json ⟨some "SUCCEED", none, some ⟨some "http://img.example/1.png"⟩⟩

theorem claim_C1_witness :
    ((jsTrim "cat").isEmpty = false) ∧ (2 < MAX_POLLS_EDGE) ∧
    (∀ j, j < 2 → stepPendsE (wPollsE1 j) = true) ∧
    (wPollsE1 2 = .json ⟨some "SUCCEED", none, some [⟨some "http://img.example/1.png"⟩]⟩) ∧
    (2 < MAX_POLLS_MW) ∧
    (∀ j, j < 2 → stepPendsM (wPollsM1 j) = true) ∧
    (wPollsM1 2 = .json ⟨some "SUCCEED", none, some ⟨some "http://img.example/1.png"⟩⟩) ∧
    (onRequestPost (some "k") (some "cat") (.okJson (some "t")) wPollsE1 =
      ⟨.stream,
        statusEv "正在提交生成任务..." :: statusEv "任务已提交，正在生成中..." ::
          ((List.range 2).map (fun j => pendEvE (j + 1)) ++
            [completeEv "生成完成！" (some "http://img.example/1.png")]),
        true, 1, 2 + 1, some (pollUrlOf (some "t")),
        some ("Bearer " ++ jsStr (some "k"))⟩ ∧
     getRouteHandler (some "k") (some "cat") (.okJson (some "t")) wPollsM1 =
      ⟨.stream,
        statusEv "正在提交生成任务..." :: statusEv "任务已提交，正在生成中..." ::
          ((List.range 2).map (fun j => pendEvM (j + 1)) ++
            [completeEv "生成完成！" (some "http://img.example/1.png")]),
        true, 1, 2 + 1, some (pollUrlOf (some "t")),
        some ("Bearer " ++ jsStr (some "k"))⟩) :=
  ⟨by decide, by decide, by decide, by decide, by decide, by decide, by decide,
    claim_C1 (some "k") (some "t") "cat" (by decide) 2 "http://img.example/1.png"
      wPollsE1 ⟨some "SUCCEED", none, some [⟨some "http://img.example/1.png"⟩]⟩ []
      (by decide) (by decide) (by decide) (by decide) (by decide)
      wPollsM1 ⟨some "SUCCEED", none, some ⟨some "http://img.example/1.png"⟩⟩
      (by decide) (by decide) (by decide) (by decide) (by decide)⟩

/-- C2: whenever the event stream is opened (the prompt is non-empty
after trimming), then whatever the submit call and every poll call do —
success, non-success response, thrown network or parse fault, or budget
exhaustion — each handler's emitted sequence is a (possibly empty) block
of `status` events followed by exactly one terminal `complete` or `error`
event, the stream is closed, and no event follows the terminal one. -/
theorem claim_C2 (apiKey : Option String) (s : String)
    (hs : (jsTrim s).isEmpty = false)
    (submit : SubmitStep) (pollsE : Nat → PollStepE) (pollsM : Nat → PollStepM) :
    ((onRequestPost apiKey (some s) submit pollsE).reply = .stream ∧
     (onRequestPost apiKey (some s) submit pollsE).closed = true ∧
     ∃ pre e, (onRequestPost apiKey (some s) submit pollsE).events = pre ++ [e] ∧
       (∀ x ∈ pre, x.type = "status") ∧
       (e.type = "complete" ∨ e.type = "error")) ∧
    ((getRouteHandler apiKey (some s) submit pollsM).reply = .stream ∧
     (getRouteHandler apiKey (some s) submit pollsM).closed = true ∧
     ∃ pre e, (getRouteHandler apiKey (some s) submit pollsM).events = pre ++ [e] ∧
       (∀ x ∈ pre, x.type = "status") ∧
       (e.type = "complete" ∨ e.type = "error")) := by
  constructor
  · cases submit with
    | fault m =>
      refine ⟨by simp [onRequestPost, promptInvalid, hs],
        by simp [onRequestPost, promptInvalid, hs],
        [statusEv "正在提交生成任务..."], errorEv ("服务器错误: " ++ m),
        by simp [onRequestPost, promptInvalid, hs], ?_, Or.inr rfl⟩
      intro x hx
      rcases List.mem_singleton.mp hx with rfl
      rfl
    | notOk st errText =>
      refine ⟨by simp [onRequestPost, promptInvalid, hs],
        by simp [onRequestPost, promptInvalid, hs],
        [statusEv "正在提交生成任务..."], errorEv ("API 请求失败: " ++ errText),
        by simp [onRequestPost, promptInvalid, hs], ?_, Or.inr rfl⟩
      intro x hx
      rcases List.mem_singleton.mp hx with rfl
      rfl
    | okJson tid =>
      cases ht : (edgePoll pollsE 0 MAX_POLLS_EDGE).terminated with
      | true =>
        obtain ⟨pre, e, hevs, hpre, hterm⟩ := (edgePoll_shape pollsE MAX_POLLS_EDGE 0).1 ht
        refine ⟨by simp [onRequestPost, promptInvalid, hs],
          by simp [onRequestPost, promptInvalid, hs],
          statusEv "正在提交生成任务..." :: statusEv "任务已提交，正在生成中..." :: pre, e,
          by simp [onRequestPost, promptInvalid, hs, ht, hevs], ?_, hterm⟩
        intro x hx
        rcases List.mem_cons.mp hx with h1 | h2
        · subst h1; rfl
        rcases List.mem_cons.mp h2 with h3 | h4
        · subst h3; rfl
        · exact hpre x h4
      | false =>
        have hall := (edgePoll_shape pollsE MAX_POLLS_EDGE 0).2 ht
        refine ⟨by simp [onRequestPost, promptInvalid, hs],
          by simp [onRequestPost, promptInvalid, hs],
          statusEv "正在提交生成任务..." :: statusEv "任务已提交，正在生成中..." ::
            (edgePoll pollsE 0 MAX_POLLS_EDGE).evs, errorEv "生成超时，请重试",
          by simp [onRequestPost, promptInvalid, hs, ht], ?_, Or.inr rfl⟩
        intro x hx
        rcases List.mem_cons.mp hx with h1 | h2
        · subst h1; rfl
        rcases List.mem_cons.mp h2 with h3 | h4
        · subst h3; rfl
        · exact hall x h4
  · cases submit with
    | fault m =>
      refine ⟨by simp [getRouteHandler, promptInvalid, hs],
        by simp [getRouteHandler, promptInvalid, hs],
        [statusEv "正在提交生成任务..."], errorEv ("服务器错误: " ++ m),
        by simp [getRouteHandler, promptInvalid, hs], ?_, Or.inr rfl⟩
      intro x hx
      rcases List.mem_singleton.mp hx with rfl
      rfl
    | notOk st errText =>
      refine ⟨by simp [getRouteHandler, promptInvalid, hs],
        by simp [getRouteHandler, promptInvalid, hs],
        [statusEv "正在提交生成任务..."],
        errorEv ("API 请求失败: " ++ toString st ++ " " ++ errText),
        by simp [getRouteHandler, promptInvalid, hs], ?_, Or.inr rfl⟩
      intro x hx
      rcases List.mem_singleton.mp hx with rfl
      rfl
    | okJson tid =>
      cases ht : (mwPoll pollsM 0 MAX_POLLS_MW).terminated with
      | true =>
        obtain ⟨pre, e, hevs, hpre, hterm⟩ := (mwPoll_shape pollsM MAX_POLLS_MW 0).1 ht
        refine ⟨by simp [getRouteHandler, promptInvalid, hs],
          by simp [getRouteHandler, promptInvalid, hs],
          statusEv "正在提交生成任务..." :: statusEv "任务已提交，正在生成中..." :: pre, e,
          by simp [getRouteHandler, promptInvalid, hs, ht, hevs], ?_, hterm⟩
        intro x hx
        rcases List.mem_cons.mp hx with h1 | h2
        · subst h1; rfl
        rcases List.mem_cons.mp h2 with h3 | h4
        · subst h3; rfl
        · exact hpre x h4
      | false =>
        have hall := (mwPoll_shape pollsM MAX_POLLS_MW 0).2 ht
        refine ⟨by simp [getRouteHandler, promptInvalid, hs],
          by simp [getRouteHandler, promptInvalid, hs],
          statusEv "正在提交生成任务..." :: statusEv "任务已提交，正在生成中..." ::
            (mwPoll pollsM 0 MAX_POLLS_MW).evs, errorEv "生成超时，请重试",
          by simp [getRouteHandler, promptInvalid, hs, ht], ?_, Or.inr rfl⟩
        intro x hx
        rcases List.mem_cons.mp hx with h1 | h2
        · subst h1; rfl
        rcases List.mem_cons.mp h2 with h3 | h4
        · subst h3; rfl
        · exact hall x h4

theorem claim_C2_witness :
    ((jsTrim "dog").isEmpty = false) ∧
    (((onRequestPost (some "k") (some "dog") (.fault "ETIMEDOUT")
          (fun _ => PollStepE.fault "x")).reply = .stream ∧
      (onRequestPost (some "k") (some "dog") (.fault "ETIMEDOUT")
          (fun _ => PollStepE.fault "x")).closed = true ∧
      ∃ pre e, (onRequestPost (some "k") (some "dog") (.fault "ETIMEDOUT")
          (fun _ => PollStepE.fault "x")).events = pre ++ [e] ∧
        (∀ x ∈ pre, x.type = "status") ∧
        (e.type = "complete" ∨ e.type = "error")) ∧
     ((getRouteHandler (some "k") (some "dog") (.fault "ETIMEDOUT")
          (fun _ => PollStepM.fault "x")).reply = .stream ∧
      (getRouteHandler (some "k") (some "dog") (.fault "ETIMEDOUT")
          (fun _ => PollStepM.fault "x")).closed = true ∧
      ∃ pre e, (getRouteHandler (some "k") (some "dog") (.fault "ETIMEDOUT")
          (fun _ => PollStepM.fault "x")).events = pre ++ [e] ∧
        (∀ x ∈ pre, x.type = "status") ∧
        (e.type = "complete" ∨ e.type = "error"))) :=
  ⟨by decide,
    claim_C2 (some "k") "dog" (by decide) (.fault "ETIMEDOUT")
      (fun _ => PollStepE.fault "x") (fun _ => PollStepM.fault "x")⟩

/-- C3: for a prompt that is missing, empty, or whitespace-only after
trimming, each handler returns the rejection and issues zero remote
calls: no submit call and no poll call. -/
theorem claim_C3 (apiKey prompt : Option String)
    (h : prompt = none ∨ ∃ s, prompt = some s ∧ (jsTrim s).isEmpty = true)
    (submit : SubmitStep) (pollsE : Nat → PollStepE) (pollsM : Nat → PollStepM) :
    ((onRequestPost apiKey prompt submit pollsE).reply = .reject 400 rejectBody ∧
     (onRequestPost apiKey prompt submit pollsE).submitCalls = 0 ∧
     (onRequestPost apiKey prompt submit pollsE).pollCalls = 0) ∧
    ((getRouteHandler apiKey prompt submit pollsM).reply = .reject 400 rejectBody ∧
     (getRouteHandler apiKey prompt submit pollsM).submitCalls = 0 ∧
     (getRouteHandler apiKey prompt submit pollsM).pollCalls = 0) := by
  have hp : promptInvalid prompt = true := by
    rcases h with rfl | ⟨s, rfl, hs⟩ <;> simp [promptInvalid, *]
  exact ⟨by simp [onRequestPost, hp], by simp [getRouteHandler, hp]⟩

theorem claim_C3_witness :
    ((some "  \t " : Option String) = none ∨
      ∃ s, (some "  \t " : Option String) = some s ∧ (jsTrim s).isEmpty = true) ∧
    (((onRequestPost (some "k") (some "  \t ") (.okJson (some "t"))
          (fun _ => PollStepE.fault "x")).reply = .reject 400 rejectBody ∧
      (onRequestPost (some "k") (some "  \t ") (.okJson (some "t"))
          (fun _ => PollStepE.fault "x")).submitCalls = 0 ∧
      (onRequestPost (some "k") (some "  \t ") (.okJson (some "t"))
          (fun _ => PollStepE.fault "x")).pollCalls = 0) ∧
     ((getRouteHandler (some "k") (some "  \t ") (.okJson (some "t"))
          (fun _ => PollStepM.fault "x")).reply = .reject 400 rejectBody ∧
      (getRouteHandler (some "k") (some "  \t ") (.okJson (some "t"))
          (fun _ => PollStepM.fault "x")).submitCalls = 0 ∧
      (getRouteHandler (some "k") (some "  \t ") (.okJson (some "t"))
          (fun _ => PollStepM.fault "x")).pollCalls = 0)) :=
  ⟨Or.inr ⟨"  \t ", rfl, by decide⟩,
    claim_C3 (some "k") (some "  \t ") (Or.inr ⟨"  \t ", rfl, by decide⟩)
      (.okJson (some "t")) (fun _ => PollStepE.fault "x") (fun _ => PollStepM.fault "x")⟩

/-- C4: for an empty or whitespace-only prompt, each handler replies
synchronously with HTTP status 400 and the JSON body naming the
validation failure, and no event stream is opened (no event is ever
emitted and no stream is created for the request). -/
theorem claim_C4 (apiKey prompt : Option String)
    (h : prompt = none ∨ ∃ s, prompt = some s ∧ (jsTrim s).isEmpty = true)
    (submit : SubmitStep) (pollsE : Nat → PollStepE) (pollsM : Nat → PollStepM) :
    ((onRequestPost apiKey prompt submit pollsE).reply =
        .reject 400 "\x7b\"error\":\"请输入提示词\"\x7d" ∧
     (onRequestPost apiKey prompt submit pollsE).events = [] ∧
     (onRequestPost apiKey prompt submit pollsE).closed = false) ∧
    ((getRouteHandler apiKey prompt submit pollsM).reply =
        .reject 400 "\x7b\"error\":\"请输入提示词\"\x7d" ∧
     (getRouteHandler apiKey prompt submit pollsM).events = [] ∧
     (getRouteHandler apiKey prompt submit pollsM).closed = false) := by
  have hp : promptInvalid prompt = true := by
    rcases h with rfl | ⟨s, rfl, hs⟩ <;> simp [promptInvalid, *]
  exact ⟨by simp [onRequestPost, hp, rejectBody], by simp [getRouteHandler, hp, rejectBody]⟩

theorem claim_C4_witness :
    ((some "" : Option String) = none ∨
      ∃ s, (some "" : Option String) = some s ∧ (jsTrim s).isEmpty = true) ∧
    (((onRequestPost (some "k") (some "") (.okJson (some "t"))
          (fun _ => PollStepE.fault "x")).reply =
        .reject 400 "\x7b\"error\":\"请输入提示词\"\x7d" ∧
      (onRequestPost (some "k") (some "") (.okJson (some "t"))
          (fun _ => PollStepE.fault "x")).events = [] ∧
      (onRequestPost (some "k") (some "") (.okJson (some "t"))
          (fun _ => PollStepE.fault "x")).closed = false) ∧
     ((getRouteHandler (some "k") (some "") (.okJson (some "t"))
          (fun _ => PollStepM.fault "x")).reply =
        .reject 400 "\x7b\"error\":\"请输入提示词\"\x7d" ∧
      (getRouteHandler (some "k") (some "") (.okJson (some "t"))
          (fun _ => PollStepM.fault "x")).events = [] ∧
      (getRouteHandler (some "k") (some "") (.okJson (some "t"))
          (fun _ => PollStepM.fault "x")).closed = false)) :=
  ⟨Or.inr ⟨"", rfl, by decide⟩,
    claim_C4 (some "k") (some "") (Or.inr ⟨"", rfl, by decide⟩)
      (.okJson (some "t")) (fun _ => PollStepE.fault "x") (fun _ => PollStepM.fault "x")⟩

/-- C5: when the remote submit call returns a non-success response, each
handler emits exactly one submission-status event followed by exactly one
`error` event whose message embeds the raw response text, closes the
stream, makes zero poll calls, and issues the submit call exactly once
(no retry). -/
theorem claim_C5 (apiKey : Option String) (s : String)
    (hs : (jsTrim s).isEmpty = false) (st : Nat) (errText : String)
    (pollsE : Nat → PollStepE) (pollsM : Nat → PollStepM) :
    (onRequestPost apiKey (some s) (.notOk st errText) pollsE =
      ⟨.stream,
        [statusEv "正在提交生成任务...", errorEv ("API 请求失败: " ++ errText)],
        true, 1, 0, none, some ("Bearer " ++ jsStr apiKey)⟩) ∧
    (getRouteHandler apiKey (some s) (.notOk st errText) pollsM =
      ⟨.stream,
        [statusEv "正在提交生成任务...",
          errorEv ("API 请求失败: " ++ toString st ++ " " ++ errText)],
        true, 1, 0, none, some ("Bearer " ++ jsStr apiKey)⟩) :=
  ⟨by simp [onRequestPost, promptInvalid, hs], by simp [getRouteHandler, promptInvalid, hs]⟩

theorem claim_C5_witness :
    ((jsTrim "cat").isEmpty = false) ∧
    ((onRequestPost (some "k") (some "cat") (.notOk 500 "quota exceeded")
        (fun _ => PollStepE.fault "x") =
      ⟨.stream,
        [statusEv "正在提交生成任务...", errorEv ("API 请求失败: " ++ "quota exceeded")],
        true, 1, 0, none, some ("Bearer " ++ jsStr (some "k"))⟩) ∧
     (getRouteHandler (some "k") (some "cat") (.notOk 500 "quota exceeded")
        (fun _ => PollStepM.fault "x") =
      ⟨.stream,
        [statusEv "正在提交生成任务...",
          errorEv ("API 请求失败: " ++ toString 500 ++ " " ++ "quota exceeded")],
        true, 1, 0, none, some ("Bearer " ++ jsStr (some "k"))⟩)) :=
  ⟨by decide,
    claim_C5 (some "k") "cat" (by decide) 500 "quota exceeded"
      (fun _ => PollStepE.fault "x") (fun _ => PollStepM.fault "x")⟩

/-- C6: when the submit call succeeds and every poll response within the
budget reports a non-terminal status, the final emitted event is the
timeout error, and the number of poll calls equals the configured budget
exactly: 40 in the edge handler and 60 in the Express-style route. -/
theorem claim_C6 (apiKey tid : Option String) (s : String)
    (hs : (jsTrim s).isEmpty = false)
    (pollsE : Nat → PollStepE) (pollsM : Nat → PollStepM)
    (hpendE : ∀ j, j < MAX_POLLS_EDGE → stepPendsE (pollsE j) = true)
    (hpendM : ∀ j, j < MAX_POLLS_MW → stepPendsM (pollsM j) = true) :
    ((onRequestPost apiKey (some s) (.okJson tid) pollsE).pollCalls = 40 ∧
     (onRequestPost apiKey (some s) (.okJson tid) pollsE).events =
       (statusEv "正在提交生成任务..." :: statusEv "任务已提交，正在生成中..." ::
         (List.range 40).map (fun j => pendEvE (j + 1))) ++ [errorEv "生成超时，请重试"] ∧
     (onRequestPost apiKey (some s) (.okJson tid) pollsE).events.getLast? =
       some (errorEv "生成超时，请重试") ∧
     (onRequestPost apiKey (some s) (.okJson tid) pollsE).closed = true) ∧
    ((getRouteHandler apiKey (some s) (.okJson tid) pollsM).pollCalls = 60 ∧
     (getRouteHandler apiKey (some s) (.okJson tid) pollsM).events =
       (statusEv "正在提交生成任务..." :: statusEv "任务已提交，正在生成中..." ::
         (List.range 60).map (fun j => pendEvM (j + 1))) ++ [errorEv "生成超时，请重试"] ∧
     (getRouteHandler apiKey (some s) (.okJson tid) pollsM).events.getLast? =
       some (errorEv "生成超时，请重试") ∧
     (getRouteHandler apiKey (some s) (.okJson tid) pollsM).closed = true) := by
  have hfrontE := edgePoll_front pollsE MAX_POLLS_EDGE (le_refl _) hpendE
  rw [Nat.sub_self] at hfrontE
  have h0E : edgePoll pollsE MAX_POLLS_EDGE 0 = ⟨[], 0, false⟩ := rfl
  rw [h0E] at hfrontE
  simp only [List.append_nil, Nat.zero_add, MAX_POLLS_EDGE] at hfrontE
  have hfrontM := mwPoll_front pollsM MAX_POLLS_MW (le_refl _) hpendM
  rw [Nat.sub_self] at hfrontM
  have h0M : mwPoll pollsM MAX_POLLS_MW 0 = ⟨[], 0, false⟩ := rfl
  rw [h0M] at hfrontM
  simp only [List.append_nil, Nat.zero_add, MAX_POLLS_MW] at hfrontM
  have hevE : (onRequestPost apiKey (some s) (.okJson tid) pollsE).events =
      (statusEv "正在提交生成任务..." :: statusEv "任务已提交，正在生成中..." ::
        (List.range 40).map (fun j => pendEvE (j + 1))) ++ [errorEv "生成超时，请重试"] := by
    simp [onRequestPost, promptInvalid, hs, hfrontE, MAX_POLLS_EDGE]
  have hevM : (getRouteHandler apiKey (some s) (.okJson tid) pollsM).events =
      (statusEv "正在提交生成任务..." :: statusEv "任务已提交，正在生成中..." ::
        (List.range 60).map (fun j => pendEvM (j + 1))) ++ [errorEv "生成超时，请重试"] := by
    simp [getRouteHandler, promptInvalid, hs, hfrontM, MAX_POLLS_MW]
  refine ⟨⟨?_, hevE, ?_, ?_⟩, ?_, hevM, ?_, ?_⟩
  · simp [onRequestPost, promptInvalid, hs, hfrontE, MAX_POLLS_EDGE]
  · rw [hevE]; exact List.getLast?_concat _
  · simp [onRequestPost, promptInvalid, hs]
  · simp [getRouteHandler, promptInvalid, hs, hfrontM, MAX_POLLS_MW]
  · rw [hevM]; exact List.getLast?_concat _
  · simp [getRouteHandler, promptInvalid, hs]

/-- Concrete poll oracles used by witnesses: every poll reports a
non-terminal status. -/
def wPollsE2 : Nat → PollStepE := fun _ => .json ⟨some "PENDING", none, none⟩

def wPollsM2 : Nat → PollStepM := fun _ => .json ⟨some "PENDING", none, none⟩

theorem claim_C6_witness :
    ((jsTrim "cat").isEmpty = false) ∧
    (∀ j, j < MAX_POLLS_EDGE → stepPendsE (wPollsE2 j) = true) ∧
    (∀ j, j < MAX_POLLS_MW → stepPendsM (wPollsM2 j) = true) ∧
    (((onRequestPost (some "k") (some "cat") (.okJson (some "t")) wPollsE2).pollCalls = 40 ∧
      (onRequestPost (some "k") (some "cat") (.okJson (some "t")) wPollsE2).events =
        (statusEv "正在提交生成任务..." :: statusEv "任务已提交，正在生成中..." ::
          (List.range 40).map (fun j => pendEvE (j + 1))) ++ [errorEv "生成超时，请重试"] ∧
      (onRequestPost (some "k") (some "cat") (.okJson (some "t")) wPollsE2).events.getLast? =
        some (errorEv "生成超时，请重试") ∧
      (onRequestPost (some "k") (some "cat") (.okJson (some "t")) wPollsE2).closed = true) ∧
     ((getRouteHandler (some "k") (some "cat") (.okJson (some "t")) wPollsM2).pollCalls = 60 ∧
      (getRouteHandler (some "k") (some "cat") (.okJson (some "t")) wPollsM2).events =
        (statusEv "正在提交生成任务..." :: statusEv "任务已提交，正在生成中..." ::
          (List.range 60).map (fun j => pendEvM (j + 1))) ++ [errorEv "生成超时，请重试"] ∧
      (getRouteHandler (some "k") (some "cat") (.okJson (some "t")) wPollsM2).events.getLast? =
        some (errorEv "生成超时，请重试") ∧
      (getRouteHandler (some "k") (some "cat") (.okJson (some "t")) wPollsM2).closed = true)) :=
  ⟨by decide, by decide, by decide,
    claim_C6 (some "k") (some "t") "cat" (by decide) wPollsE2 wPollsM2
      (by decide) (by decide)⟩

/-- C7: when a poll response reports the `FAILED` status (after any
number of pending responses within the budget), each handler emits a
terminal `error` event and closes the stream; its message is built from
the remote-supplied failure reason via JavaScript `||`, so a present
non-empty reason is included verbatim and an absent reason falls back to
the generic text (`未知原因` in the edge handler, `未知错误` in the
Express-style route). -/
theorem claim_C7 (apiKey tid : Option String) (s : String)
    (hs : (jsTrim s).isEmpty = false) (N : Nat)
    (pollsE : Nat → PollStepE) (dE : PollDataE)
    (hNE : N < MAX_POLLS_EDGE)
    (hpendE : ∀ j, j < N → stepPendsE (pollsE j) = true)
    (hjE : pollsE N = .json dE)
    (hstE : dE.task_status = some "FAILED")
    (pollsM : Nat → PollStepM) (dM : PollDataM)
    (hNM : N < MAX_POLLS_MW)
    (hpendM : ∀ j, j < N → stepPendsM (pollsM j) = true)
    (hjM : pollsM N = .json dM)
    (hstM : dM.task_status = some "FAILED") :
    (onRequestPost apiKey (some s) (.okJson tid) pollsE =
      ⟨.stream,
        statusEv "正在提交生成任务..." :: statusEv "任务已提交，正在生成中..." ::
          ((List.range N).map (fun j => pendEvE (j + 1)) ++
            [errorEv ("生成失败: " ++ jsOr dE.error_message "未知原因")]),
        true, 1, N + 1, some (pollUrlOf tid), some ("Bearer " ++ jsStr apiKey)⟩) ∧
    (getRouteHandler apiKey (some s) (.okJson tid) pollsM =
      ⟨.stream,
        statusEv "正在提交生成任务..." :: statusEv "任务已提交，正在生成中..." ::
          ((List.range N).map (fun j => pendEvM (j + 1)) ++
            [errorEv ("图片生成失败: " ++ jsOr dM.error_message "未知错误")]),
        true, 1, N + 1, some (pollUrlOf tid), some ("Bearer " ++ jsStr apiKey)⟩) ∧
    (∀ r, dE.error_message = some r → r.isEmpty = false → jsOr dE.error_message "未知原因" = r) ∧
    (dE.error_message = none → jsOr dE.error_message "未知原因" = "未知原因") ∧
    (∀ r, dM.error_message = some r → r.isEmpty = false → jsOr dM.error_message "未知错误" = r) ∧
    (dM.error_message = none → jsOr dM.error_message "未知错误" = "未知错误") := by
  have hE : edgePoll pollsE N (MAX_POLLS_EDGE - N) =
      ⟨[errorEv ("生成失败: " ++ jsOr dE.error_message "未知原因")], 1, true⟩ := by
    obtain ⟨f, hf⟩ : ∃ f, MAX_POLLS_EDGE - N = f + 1 :=
      ⟨MAX_POLLS_EDGE - N - 1, by simp only [MAX_POLLS_EDGE] at hNE ⊢; omega⟩
    rw [hf]
    simp [edgePoll, hjE, hstE]
  have hM : mwPoll pollsM N (MAX_POLLS_MW - N) =
      ⟨[errorEv ("图片生成失败: " ++ jsOr dM.error_message "未知错误")], 1, true⟩ := by
    obtain ⟨f, hf⟩ : ∃ f, MAX_POLLS_MW - N = f + 1 :=
      ⟨MAX_POLLS_MW - N - 1, by simp only [MAX_POLLS_MW] at hNM ⊢; omega⟩
    rw [hf]
    simp [mwPoll, hjM, hstM]
  have hfrontE := edgePoll_front pollsE N (by omega) hpendE
  rw [hE] at hfrontE
  have hfrontM := mwPoll_front pollsM N (by omega) hpendM
  rw [hM] at hfrontM
  refine ⟨?_, ?_, ?_, ?_, ?_, ?_⟩
  · simp [onRequestPost, promptInvalid, hs, hfrontE, Nat.add_comm]
  · simp [getRouteHandler, promptInvalid, hs, hfrontM, Nat.add_comm]
  · intro r hr hne; simp [jsOr, hr, hne]
  · intro hr; simp [jsOr, hr]
  · intro r hr hne; simp [jsOr, hr, hne]
  · intro hr; simp [jsOr, hr]

/-- Concrete poll oracles used by witnesses: one pending response, then a
`FAILED` response carrying the remote failure reason. -/
def wPollsE3 : Nat → PollStepE := fun i =>
  if i < 1 then .json ⟨some "PENDING", none, none⟩
  else .json ⟨some "FAILED", some "quota", none⟩

def wPollsM3 : Nat → PollStepM := fun i =>
  if i < 1 then .json ⟨some "PENDING", none, none⟩
  else .json ⟨some "FAILED", some "quota", none⟩

theorem claim_C7_witness :
    ((jsTrim "cat").isEmpty = false) ∧ (1 < MAX_POLLS_EDGE) ∧
    (∀ j, j < 1 → stepPendsE (wPollsE3 j) = true) ∧
    (wPollsE3 1 = .json ⟨some "FAILED", some "quota", none⟩) ∧
    (1 < MAX_POLLS_MW) ∧
    (∀ j, j < 1 → stepPendsM (wPollsM3 j) = true) ∧
    (wPollsM3 1 = .json ⟨some "FAILED", some "quota", none⟩) ∧
    ((onRequestPost (some "k") (some "cat") (.okJson (some "t")) wPollsE3 =
      ⟨.stream,
        statusEv "正在提交生成任务..." :: statusEv "任务已提交，正在生成中..." ::
          ((List.range 1).map (fun j => pendEvE (j + 1)) ++
            [errorEv ("生成失败: " ++ jsOr (some "quota") "未知原因")]),
        true, 1, 1 + 1, some (pollUrlOf (some "t")),
        some ("Bearer " ++ jsStr (some "k"))⟩) ∧
     (getRouteHandler (some "k") (some "cat") (.okJson (some "t")) wPollsM3 =
      ⟨.stream,
        statusEv "正在提交生成任务..." :: statusEv "任务已提交，正在生成中..." ::
          ((List.range 1).map (fun j => pendEvM (j + 1)) ++
            [errorEv ("图片生成失败: " ++ jsOr (some "quota") "未知错误")]),
        true, 1, 1 + 1, some (pollUrlOf (some "t")),
        some ("Bearer " ++ jsStr (some "k"))⟩) ∧
     (∀ r, (some "quota" : Option String) = some r → r.isEmpty = false →
        jsOr (some "quota") "未知原因" = r) ∧
     ((some "quota" : Option String) = none → jsOr (some "quota") "未知原因" = "未知原因") ∧
     (∀ r, (some "quota" : Option String) = some r → r.isEmpty = false →
        jsOr (some "quota") "未知错误" = r) ∧
     ((some "quota" : Option String) = none → jsOr (some "quota") "未知错误" = "未知错误")) :=
  ⟨by decide, by decide, by decide, by decide, by decide, by decide, by decide,
    claim_C7 (some "k") (some "t") "cat" (by decide) 1
      wPollsE3 ⟨some "FAILED", some "quota", none⟩ (by decide) (by decide) (by decide) (by decide)
      wPollsM3 ⟨some "FAILED", some "quota", none⟩ (by decide) (by decide) (by decide) (by decide)⟩

/-- C8: with identical prompt input and identical remote outcomes at
every submit and poll call, the emitted event sequence is identical
across runs.  The only cross-request mutable state in the sources is the
process-wide key that `module.exports` overwrites before each request;
the middleware run is therefore independent of the variable's prior
value, a second identical request issued after a first one produces the
identical run, and the edge handler's event sequence does not depend on
the ambient secret at all. -/
theorem claim_C8 (k1 k2 a1 a2 envKey prompt : Option String)
    (submit : SubmitStep) (pollsE : Nat → PollStepE) (pollsM : Nat → PollStepM) :
    ((moduleExports k1 envKey prompt submit pollsM).2 =
      (moduleExports k2 envKey prompt submit pollsM).2) ∧
    ((moduleExports (moduleExports k1 envKey prompt submit pollsM).1
        envKey prompt submit pollsM).2 =
      (moduleExports k1 envKey prompt submit pollsM).2) ∧
    ((onRequestPost a1 prompt submit pollsE).events =
      (onRequestPost a2 prompt submit pollsE).events) := by
  refine ⟨rfl, rfl, ?_⟩
  cases hp : promptInvalid prompt with
  | true => simp [onRequestPost, hp]
  | false => cases submit <;> simp [onRequestPost, hp]

/-- C9 (implicit): a poll response whose `task_status` is anything other
than the literal strings `SUCCEED` and `FAILED` — absent, unrecognized,
or another spelling of success such as `SUCCEEDED` — is treated as still
pending by both poll loops: the iteration emits the 1-based pending
status event and the loop continues into the next iteration. -/
theorem claim_C9 (i fuel : Nat)
    (pollsE : Nat → PollStepE) (dE : PollDataE)
    (hjE : pollsE i = .json dE)
    (hsE : dE.task_status ≠ some "SUCCEED") (hfE : dE.task_status ≠ some "FAILED")
    (pollsM : Nat → PollStepM) (dM : PollDataM)
    (hjM : pollsM i = .json dM)
    (hsM : dM.task_status ≠ some "SUCCEED") (hfM : dM.task_status ≠ some "FAILED") :
    (edgePoll pollsE i (fuel + 1) =
      ⟨pendEvE (i + 1) :: (edgePoll pollsE (i + 1) fuel).evs,
        (edgePoll pollsE (i + 1) fuel).polls + 1,
        (edgePoll pollsE (i + 1) fuel).terminated⟩) ∧
    (mwPoll pollsM i (fuel + 1) =
      ⟨pendEvM (i + 1) :: (mwPoll pollsM (i + 1) fuel).evs,
        (mwPoll pollsM (i + 1) fuel).polls + 1,
        (mwPoll pollsM (i + 1) fuel).terminated⟩) :=
  ⟨edgePoll_pend pollsE i fuel (by simp [stepPendsE, hjE, hsE, hfE]),
    mwPoll_pend pollsM i fuel (by simp [stepPendsM, hjM, hsM, hfM])⟩

/-- Concrete poll oracles used by witnesses: every response reports the
unrecognized status spelling `SUCCEEDED`. -/
def wPollsE4 : Nat → PollStepE := fun _ =>
  .json ⟨some "SUCCEEDED", none, some [⟨some "http://img.example/1.png"⟩]⟩

def wPollsM4 : Nat → PollStepM := fun _ =>
  .json ⟨some "SUCCEEDED", none, some ⟨some "http://img.example/1.png"⟩⟩

theorem claim_C9_witness :
    (wPollsE4 0 = .json ⟨some "SUCCEEDED", none, some [⟨some "http://img.example/1.png"⟩]⟩) ∧
    ((⟨some "SUCCEEDED", none, some [⟨some "http://img.example/1.png"⟩]⟩ :
        PollDataE).task_status ≠ some "SUCCEED") ∧
    ((⟨some "SUCCEEDED", none, some [⟨some "http://img.example/1.png"⟩]⟩ :
        PollDataE).task_status ≠ some "FAILED") ∧
    ((edgePoll wPollsE4 0 (3 + 1) =
      ⟨pendEvE (0 + 1) :: (edgePoll wPollsE4 (0 + 1) 3).evs,
        (edgePoll wPollsE4 (0 + 1) 3).polls + 1,
        (edgePoll wPollsE4 (0 + 1) 3).terminated⟩) ∧
     (mwPoll wPollsM4 0 (3 + 1) =
      ⟨pendEvM (0 + 1) :: (mwPoll wPollsM4 (0 + 1) 3).evs,
        (mwPoll wPollsM4 (0 + 1) 3).polls + 1,
        (mwPoll wPollsM4 (0 + 1) 3).terminated⟩)) :=
  ⟨by decide, by decide, by decide,
    claim_C9 0 3 wPollsE4 ⟨some "SUCCEEDED", none, some [⟨some "http://img.example/1.png"⟩]⟩
      (by decide) (by decide) (by decide)
      wPollsM4 ⟨some "SUCCEEDED", none, some ⟨some "http://img.example/1.png"⟩⟩
      (by decide) (by decide) (by decide)⟩

/-- C10 (implicit): when the submit call succeeds but its JSON body has
no `task_id` field, neither handler validates it or raises an error at
submission time: the submitted-status event follows the submission-status
event, the poll loop is entered (at least one poll call is issued), and
every poll call targets the URL formed with the interpolated text
`undefined` in place of the job identifier. -/
theorem claim_C10 (apiKey : Option String) (s : String)
    (hs : (jsTrim s).isEmpty = false)
    (pollsE : Nat → PollStepE) (pollsM : Nat → PollStepM) :
    ((onRequestPost apiKey (some s) (.okJson none) pollsE).events.take 2 =
        [statusEv "正在提交生成任务...", statusEv "任务已提交，正在生成中..."] ∧
     1 ≤ (onRequestPost apiKey (some s) (.okJson none) pollsE).pollCalls ∧
     (onRequestPost apiKey (some s) (.okJson none) pollsE).pollUrl =
        some "https://api-inference.modelscope.cn/v1/tasks/undefined") ∧
    ((getRouteHandler apiKey (some s) (.okJson none) pollsM).events.take 2 =
        [statusEv "正在提交生成任务...", statusEv "任务已提交，正在生成中..."] ∧
     1 ≤ (getRouteHandler apiKey (some s) (.okJson none) pollsM).pollCalls ∧
     (getRouteHandler apiKey (some s) (.okJson none) pollsM).pollUrl =
        some "https://api-inference.modelscope.cn/v1/tasks/undefined") := by
  have hposE : 1 ≤ (edgePoll pollsE 0 MAX_POLLS_EDGE).polls :=
    edgePoll_pos pollsE 0 MAX_POLLS_EDGE (by decide)
  have hposM : 1 ≤ (mwPoll pollsM 0 MAX_POLLS_MW).polls :=
    mwPoll_pos pollsM 0 MAX_POLLS_MW (by decide)
  have hneE : ¬ (edgePoll pollsE 0 MAX_POLLS_EDGE).polls = 0 := by omega
  have hneM : ¬ (mwPoll pollsM 0 MAX_POLLS_MW).polls = 0 := by omega
  refine ⟨⟨?_, ?_, ?_⟩, ?_, ?_, ?_⟩
  · cases ht : (edgePoll pollsE 0 MAX_POLLS_EDGE).terminated <;>
      simp [onRequestPost, promptInvalid, hs, ht]
  · simpa [onRequestPost, promptInvalid, hs] using hposE
  · simp [onRequestPost, promptInvalid, hs, hneE, pollUrlOf, jsStr, BASE_URL]
  · cases ht : (mwPoll pollsM 0 MAX_POLLS_MW).terminated <;>
      simp [getRouteHandler, promptInvalid, hs, ht]
  · simpa [getRouteHandler, promptInvalid, hs] using hposM
  · simp [getRouteHandler, promptInvalid, hs, hneM, pollUrlOf, jsStr, BASE_URL]

theorem claim_C10_witness :
    ((jsTrim "cat").isEmpty = false) ∧
    (((onRequestPost (some "k") (some "cat") (.okJson none)
          (fun _ => PollStepE.fault "x")).events.take 2 =
        [statusEv "正在提交生成任务...", statusEv "任务已提交，正在生成中..."] ∧
      1 ≤ (onRequestPost (some "k") (some "cat") (.okJson none)
          (fun _ => PollStepE.fault "x")).pollCalls ∧
      (onRequestPost (some "k") (some "cat") (.okJson none)
          (fun _ => PollStepE.fault "x")).pollUrl =
        some "https://api-inference.modelscope.cn/v1/tasks/undefined") ∧
     ((getRouteHandler (some "k") (some "cat") (.okJson none)
          (fun _ => PollStepM.fault "x")).events.take 2 =
        [statusEv "正在提交生成任务...", statusEv "任务已提交，正在生成中..."] ∧
      1 ≤ (getRouteHandler (some "k") (some "cat") (.okJson none)
          (fun _ => PollStepM.fault "x")).pollCalls ∧
      (getRouteHandler (some "k") (some "cat") (.okJson none)
          (fun _ => PollStepM.fault "x")).pollUrl =
        some "https://api-inference.modelscope.cn/v1/tasks/undefined")) :=
  ⟨by decide,
    claim_C10 (some "k") "cat" (by decide)
      (fun _ => PollStepE.fault "x") (fun _ => PollStepM.fault "x")⟩
